import Mathlib

/-!
Shallow embedding of `src/logic/src/rapier_world.rs` (crate `logic` of
`godot-vs-rapier`): a rapier2d physics world (`PhysicsState`) driven once per
frame by a Godot node controller (`RapierWorld2D`).

Machine `f32` coordinates are modelled as rationals: the claims under study
involve no rounding-sensitive arithmetic (positions are stored and copied, the
only literal arithmetic is `48. * 0.4`, `h / 2.`), so exact arithmetic is the
faithful reading of the source expressions.

Rust `unwrap()` on `None` panics; a panic is modelled by the `PanicOr` outcome
type, whose `panic` constructor carries the state as mutated up to the panic
point (matching the interior-mutability cells of the source, whose mutations
before a panic persist).
-/

namespace GodotVsRapier

/-- Two-dimensional vector (`gdnative::Vector2` / `rapier2d::na::Vector2`), components
modelled as rationals. -/
structure Vector2 where
  x : ℚ
  y : ℚ
  deriving DecidableEq, Repr

/-- Body kind, fixed at construction: `RigidBodyBuilder::new_static()` versus
`RigidBodyBuilder::new_dynamic()`. -/
inductive BodyKind where
  | staticBody
  | dynamicBody
  deriving DecidableEq, Repr

/-- A rapier rigid body, restricted to the attributes the source reads and
writes: kind, translation and rotation angle. `RigidBodyBuilder::translation`
sets the position; a freshly built body has rotation 0. -/
structure RigidBody where
  kind : BodyKind
  position : Vector2
  rotation : ℚ
  deriving DecidableEq, Repr

/-- Handle into the rigid-body set (`rapier2d::dynamics::RigidBodyHandle`):
an opaque stable index, modelled as the insertion index. -/
abbrev RigidBodyHandle := Nat

/-- Arena type `rapier2d::dynamics::RigidBodySet`. The source never
removes bodies, so a list indexed by insertion order models it exactly. -/
structure RigidBodySet where
  list : List RigidBody
  deriving DecidableEq, Repr

/-- Source `RigidBodySet::new()`. -/
def RigidBodySet.new : RigidBodySet := { list := [] }

/-- Source `RigidBodySet::insert`: appends the body and returns the fresh handle. -/
def RigidBodySet.insert (s : RigidBodySet) (b : RigidBody) :
    RigidBodySet × RigidBodyHandle :=
  ({ list := s.list ++ [b] }, s.list.length)

/-- Source `RigidBodySet::get`: `None` when the handle references no body. -/
def RigidBodySet.get (s : RigidBodySet) (h : RigidBodyHandle) :
    Option RigidBody :=
  s.list.get? h

/-- A collider as the source builds it: `ColliderBuilder::cuboid(w, h)` (box
with half-extents `(w, h)`) attached at creation to its parent body. -/
structure Collider where
  halfExtents : Vector2
  parent : RigidBodyHandle
  deriving DecidableEq, Repr

/-- The source struct `PhysicsState`, restricted to the data the claims are
about: the body and collider sets. The `pipeline`, `broad_phase`,
`narrow_phase`, `joints` and `ccd` fields are solver working state consumed
inside `PhysicsPipeline::step`, which is abstracted in `tick` below. -/
structure PhysicsState where
  bodies : RigidBodySet
  colliders : List Collider
  deriving DecidableEq, Repr

/-- Source `PhysicsState::new()`: empty body and collider sets. -/
def PhysicsState.new : PhysicsState :=
  { bodies := RigidBodySet.new, colliders := [] }

/-- Modelled from the spec: the body of `rapier2d::pipeline::PhysicsPipeline::step`
is external library code, absent from this repository. Per the spec, one step
integrates every dynamic body (under the supplied gravity and the fixed
default integration parameters) and never moves a static body; the
integration of a single dynamic body is abstracted as the parameter
`integrate`. -/
def stepBody (integrate : Vector2 → RigidBody → RigidBody) (gravity : Vector2)
    (b : RigidBody) : RigidBody :=
  match b.kind with
  | .staticBody => b
  | .dynamicBody => integrate gravity b

/-- Source `PhysicsState::tick`: converts the gravity vector and calls
`pipeline.step` with the default `IntegrationParameters` on the whole world;
the step advances each body by `stepBody` and neither adds nor removes
bodies or colliders. -/
def PhysicsState.tick (integrate : Vector2 → RigidBody → RigidBody)
    (gravity : Vector2) (s : PhysicsState) : PhysicsState :=
  { s with
    bodies := { list := s.bodies.list.map (stepBody integrate gravity) } }

/-- Iterated `tick`: one call per element of `gravities`, in order. -/
def PhysicsState.ticks (integrate : Vector2 → RigidBody → RigidBody)
    (gravities : List Vector2) (s : PhysicsState) : PhysicsState :=
  gravities.foldl (fun acc g => acc.tick integrate g) s

/-- Source `PhysicsState::add_static`: inserts an immovable body at `(x, y)` and
attaches one `cuboid(w, h)` collider to it. -/
def PhysicsState.add_static (s : PhysicsState) (x y w h : ℚ) : PhysicsState :=
  let floor : RigidBody :=
    { kind := .staticBody, position := { x := x, y := y }, rotation := 0 }
  let inserted := s.bodies.insert floor
  let floorCollider : Collider :=
    { halfExtents := { x := w, y := h }, parent := inserted.2 }
  { bodies := inserted.1, colliders := s.colliders ++ [floorCollider] }

/-- Source `PhysicsState::add_box`: inserts a dynamic body at `(x, y)`, attaches one
square `cuboid(48. * 0.4, 48. * 0.4)` collider, and returns the fresh
handle. -/
def PhysicsState.add_box (s : PhysicsState) (x y : ℚ) :
    PhysicsState × RigidBodyHandle :=
  let fallingBox : RigidBody :=
    { kind := .dynamicBody, position := { x := x, y := y }, rotation := 0 }
  let inserted := s.bodies.insert fallingBox
  let boxCollider : Collider :=
    { halfExtents := { x := 48 * (2 / 5), y := 48 * (2 / 5) },
      parent := inserted.2 }
  ({ bodies := inserted.1, colliders := s.colliders ++ [boxCollider] },
   inserted.2)

/-- The spec's `getBodyPose(handle)` operation, realized in the source as
`bodies.get(handle)` followed by reading `position().translation` and
`position().rotation.angle()` (see `update_boxes`): `none` exactly when the
handle references no currently existing body. -/
def PhysicsState.getBodyPose (s : PhysicsState) (h : RigidBodyHandle) :
    Option (Vector2 × ℚ) :=
  (s.bodies.get h).map fun b => (b.position, b.rotation)

/-- State of an externally owned Godot `Node2D` visual node, restricted to
what the source touches: `set_name`, `set_position`, `set_rotation`. -/
structure Node2DState where
  name : String
  position : Vector2
  rotation : ℚ
  deriving DecidableEq, Repr

/-- A Godot `PackedScene` resource: instancing it yields a fresh node from
its template. -/
structure PackedScene where
  template : Node2DState
  deriving DecidableEq, Repr

/-- The host's `ResourceLoader::load` followed by the `cast::<PackedScene>`,
an external Godot facility: modelled as an arbitrary resolver parameter from
resource paths to optionally loaded scenes. -/
abbrev ResourceResolver := String → Option PackedScene

/-- Source `load_scene`: resolves `path` through the host resource loader,
propagating `None` (the `?` operator and the fallible cast) when the
resource cannot be resolved. -/
def load_scene (resolver : ResourceResolver) (path : String) :
    Option PackedScene :=
  resolver path

/-- Source `instance_scene`: instances the packed scene, producing a fresh
node carrying the template state. (Its `unwrap`s cannot fail once the scene
resource itself was resolved; they are not separately modelled.) -/
def instance_scene (scene : PackedScene) : Node2DState :=
  scene.template

/-- Outcome of an operation that may hit a Rust `unwrap()` panic: either the
resulting state, or — for `panic` — the state as mutated up to the panic
point (the `RefCell` contents the source had already written). -/
inductive PanicOr (α : Type) where
  | ok (a : α)
  | panic (stateAtPanic : α)
  deriving DecidableEq, Repr

/-- True exactly on the non-panicking outcome. -/
def PanicOr.isOk {α : Type} : PanicOr α → Bool
  | .ok _ => true
  | .panic _ => false

/-- A predicate holding on the carried state of either outcome. -/
def PanicOr.Holds {α : Type} (P : α → Prop) : PanicOr α → Prop
  | .ok a => P a
  | .panic a => P a

/-- The source struct `RapierWorld2D`: the exported `gravity` property, the
`RefCell<PhysicsState>` world, and the `RefCell<Vec<(RigidBodyHandle,
Ref<Node2D>)>>` spawn-record list (handle paired with the tracked visual
node). -/
structure RapierWorld2D where
  gravity : Vector2
  physics : PhysicsState
  boxes : List (RigidBodyHandle × Node2DState)
  deriving DecidableEq, Repr

/-- Source `RapierWorld2D::new`: gravity `(0., 98.)`, empty physics state,
empty record list. -/
def RapierWorld2D.new : RapierWorld2D :=
  { gravity := { x := 0, y := 98 },
    physics := PhysicsState.new,
    boxes := [] }

/-- Source `RapierWorld2D::_ready`: reads the viewport bounds `(w, h)` and
adds the three static boundary bodies — floor `(0, h)` with half-extents
`(w, 10)`, left wall `(0, h/2)` with half-extents `(10, h)`, right wall
`(w, h/2)` with half-extents `(10, h)`. -/
def RapierWorld2D._ready (world : RapierWorld2D) (w h : ℚ) : RapierWorld2D :=
  let p1 := world.physics.add_static 0 h w 10
  let p2 := p1.add_static 0 (h / 2) 10 h
  let p3 := p2.add_static w (h / 2) 10 h
  { world with physics := p3 }

/-- The fixed template path the source spawns from. -/
def boxScenePath : String := "res://scenes/RapierBox.tscn"

/-- Source `RapierWorld2D::spawn`: adds a dynamic body at `(x, y)`, then
loads the box template and `unwrap`s it — a panic when the resource does not
resolve, with the body already inserted and no record appended — instances
it, names the node `box_<n>` for `n` the current record count, and appends
the `(handle, node)` record. -/
def RapierWorld2D.spawn (resolver : ResourceResolver) (world : RapierWorld2D)
    (x y : ℚ) : PanicOr RapierWorld2D :=
  let added := world.physics.add_box x y
  let fallingBoxIndex := world.boxes.length
  match load_scene resolver boxScenePath with
  | none => .panic { world with physics := added.1 }
  | some boxAsset =>
      let newNode := instance_scene boxAsset
      let keyStr := "box_" ++ toString fallingBoxIndex
      let newNode := { newNode with name := keyStr }
      .ok { world with
              physics := added.1,
              boxes := world.boxes ++ [(added.2, newNode)] }

/-- Per-frame events, for stating the ordering of the phases of
`RapierWorld2D::_process`. -/
inductive FrameEvent where
  | spawnCall (x y : ℚ)
  | stepCall (gravity : Vector2)
  | poseUpdate (handle : RigidBodyHandle)
  deriving DecidableEq, Repr

/-- Loop of source `RapierWorld2D::update_boxes` over the record list, in
list order: looks the handle up in the body set and `unwrap`s — a panic when
the handle references no body, with the earlier nodes already updated and
the remaining ones untouched — then copies position and rotation onto the
node. Also returns the pose-read events actually performed, in order. -/
def updateBoxesGo (bodies : RigidBodySet) :
    List (RigidBodyHandle × Node2DState) →
      PanicOr (List (RigidBodyHandle × Node2DState)) × List FrameEvent
  | [] => (.ok [], [])
  | r :: rest =>
    match bodies.get r.1 with
    | none => (.panic (r :: rest), [])
    | some body =>
      let node :=
        { r.2 with position := body.position, rotation := body.rotation }
      let tail := updateBoxesGo bodies rest
      (match tail.1 with
       | .ok l => .ok ((r.1, node) :: l)
       | .panic l => .panic ((r.1, node) :: l),
       .poseUpdate r.1 :: tail.2)

/-- Source `RapierWorld2D::update_boxes`: synchronizes every tracked visual
node with its body's pose, in record-list order. -/
def RapierWorld2D.update_boxes (world : RapierWorld2D) :
    PanicOr RapierWorld2D × List FrameEvent :=
  let run := updateBoxesGo world.physics.bodies world.boxes
  (match run.1 with
   | .ok l => .ok { world with boxes := l }
   | .panic l => .panic { world with boxes := l },
   run.2)

/-- Per-frame host inputs read by `_process`: the `click` action state and
the global mouse position. -/
structure FrameInput where
  mousePress : Bool
  pos : Vector2
  deriving DecidableEq, Repr

/-- Source `RapierWorld2D::_process`, instrumented with the list of frame
events in execution order: if the spawn trigger is active, `spawn` at the
mouse position (a spawn panic propagates, aborting the frame before any
step); then `tick` with the current gravity, exactly once; then
`update_boxes`. The FPS/count label updates touch no simulation state and
are omitted. -/
def RapierWorld2D.processTraced (resolver : ResourceResolver)
    (integrate : Vector2 → RigidBody → RigidBody) (world : RapierWorld2D)
    (inp : FrameInput) : PanicOr RapierWorld2D × List FrameEvent :=
  if inp.mousePress then
    match world.spawn resolver inp.pos.x inp.pos.y with
    | .panic s => (.panic s, [.spawnCall inp.pos.x inp.pos.y])
    | .ok w1 =>
      let w2 := { w1 with physics := w1.physics.tick integrate w1.gravity }
      let run := w2.update_boxes
      (run.1,
       .spawnCall inp.pos.x inp.pos.y :: .stepCall w1.gravity :: run.2)
  else
    let w2 := { world with
                  physics := world.physics.tick integrate world.gravity }
    let run := w2.update_boxes
    (run.1, .stepCall world.gravity :: run.2)

/-- Source `RapierWorld2D::_process`, outcome only. -/
def RapierWorld2D._process (resolver : ResourceResolver)
    (integrate : Vector2 → RigidBody → RigidBody) (world : RapierWorld2D)
    (inp : FrameInput) : PanicOr RapierWorld2D :=
  (world.processTraced resolver integrate inp).1

/-- Iterated `spawn` at a list of positions; a panic aborts the sequence. -/
def RapierWorld2D.spawnN (resolver : ResourceResolver)
    (world : RapierWorld2D) : List (ℚ × ℚ) → PanicOr RapierWorld2D
  | [] => .ok world
  | p :: ps =>
    match world.spawn resolver p.1 p.2 with
    | .panic s => .panic s
    | .ok w1 => w1.spawnN resolver ps

/-- Record-list invariant of the controller: every stored handle references
a body currently present in the world's rigid-body set. -/
def recordsValid (world : RapierWorld2D) : Prop :=
  ∀ r ∈ world.boxes, (world.physics.bodies.get r.1).isSome = true

instance (world : RapierWorld2D) : Decidable (recordsValid world) :=
  List.decidableBAll _ world.boxes

/-! ### Lemmas about the body arena -/

theorem RigidBodySet.get_insert_self (s : RigidBodySet) (b : RigidBody) :
    (s.insert b).1.get (s.insert b).2 = some b :=
  List.get?_concat_length _ _

theorem RigidBodySet.lt_length_of_isSome {s : RigidBodySet}
    {h : RigidBodyHandle} (hs : (s.get h).isSome = true) :
    h < s.list.length := by
  by_contra hc
  rw [RigidBodySet.get, List.get?_eq_none.2 (Nat.le_of_not_lt hc)] at hs
  simp at hs

theorem RigidBodySet.get_insert_of_isSome {s : RigidBodySet} {b : RigidBody}
    {h : RigidBodyHandle} (hs : (s.get h).isSome = true) :
    (s.insert b).1.get h = s.get h :=
  List.get?_append (RigidBodySet.lt_length_of_isSome hs)

theorem RigidBodySet.get_fresh_handle (s : RigidBodySet) (b : RigidBody) :
    s.get (s.insert b).2 = none :=
  List.get?_eq_none.2 le_rfl

/-! ### Lemmas about the physics operations -/

theorem PhysicsState.get_tick (integrate : Vector2 → RigidBody → RigidBody)
    (g : Vector2) (s : PhysicsState) (h : RigidBodyHandle) :
    (s.tick integrate g).bodies.get h
      = (s.bodies.get h).map (stepBody integrate g) :=
  List.get?_map _ _ _

theorem PhysicsState.add_static_bodies (s : PhysicsState) (x y w h : ℚ) :
    (s.add_static x y w h).bodies
      = (s.bodies.insert
           { kind := .staticBody, position := { x := x, y := y },
             rotation := 0 }).1 :=
  rfl

theorem PhysicsState.add_box_handle (s : PhysicsState) (x y : ℚ) :
    (s.add_box x y).2 = s.bodies.list.length :=
  rfl

theorem PhysicsState.add_box_bodies (s : PhysicsState) (x y : ℚ) :
    (s.add_box x y).1.bodies
      = (s.bodies.insert
           { kind := .dynamicBody, position := { x := x, y := y },
             rotation := 0 }).1 :=
  rfl

theorem PhysicsState.get_add_static_of_isSome {s : PhysicsState}
    {hb : RigidBodyHandle} (x y w h : ℚ)
    (hs : (s.bodies.get hb).isSome = true) :
    (s.add_static x y w h).bodies.get hb = s.bodies.get hb := by
  rw [PhysicsState.add_static_bodies]
  exact RigidBodySet.get_insert_of_isSome hs

theorem PhysicsState.get_add_box_of_isSome {s : PhysicsState}
    {hb : RigidBodyHandle} (x y : ℚ)
    (hs : (s.bodies.get hb).isSome = true) :
    (s.add_box x y).1.bodies.get hb = s.bodies.get hb := by
  rw [PhysicsState.add_box_bodies]
  exact RigidBodySet.get_insert_of_isSome hs

theorem PhysicsState.get_add_box_self (s : PhysicsState) (x y : ℚ) :
    (s.add_box x y).1.bodies.get (s.add_box x y).2
      = some { kind := .dynamicBody, position := { x := x, y := y },
               rotation := 0 } := by
  rw [PhysicsState.add_box_bodies, PhysicsState.add_box_handle]
  exact RigidBodySet.get_insert_self _ _

theorem PhysicsState.ticks_cons (integrate : Vector2 → RigidBody → RigidBody)
    (g : Vector2) (gs : List Vector2) (s : PhysicsState) :
    PhysicsState.ticks integrate (g :: gs) s
      = PhysicsState.ticks integrate gs (s.tick integrate g) :=
  rfl

theorem PhysicsState.get_ticks_static
    {integrate : Vector2 → RigidBody → RigidBody} {gs : List Vector2}
    {s : PhysicsState} {h : RigidBodyHandle} {b : RigidBody}
    (hget : s.bodies.get h = some b) (hkind : b.kind = .staticBody) :
    (PhysicsState.ticks integrate gs s).bodies.get h = some b := by
  induction gs generalizing s with
  | nil => exact hget
  | cons g gs ih =>
    rw [PhysicsState.ticks_cons]
    refine ih ?_
    rw [PhysicsState.get_tick, hget]
    simp [stepBody, hkind]

/-! ### Lemmas about the controller operations -/

theorem RapierWorld2D.spawn_ok {resolver : ResourceResolver}
    {sc : PackedScene} (hres : load_scene resolver boxScenePath = some sc)
    (world : RapierWorld2D) (x y : ℚ) :
    world.spawn resolver x y
      = .ok { world with
                physics := (world.physics.add_box x y).1,
                boxes := world.boxes
                  ++ [((world.physics.add_box x y).2,
                       { instance_scene sc with
                           name := "box_" ++ toString world.boxes.length })] } := by
  unfold RapierWorld2D.spawn
  rw [hres]

theorem RapierWorld2D.spawn_panic {resolver : ResourceResolver}
    (hres : load_scene resolver boxScenePath = none)
    (world : RapierWorld2D) (x y : ℚ) :
    world.spawn resolver x y
      = .panic { world with physics := (world.physics.add_box x y).1 } := by
  unfold RapierWorld2D.spawn
  rw [hres]

theorem updateBoxesGo_valid {bodies : RigidBodySet}
    {recs : List (RigidBodyHandle × Node2DState)}
    (hv : ∀ r ∈ recs, (bodies.get r.1).isSome = true) :
    ∃ l, updateBoxesGo bodies recs
           = (.ok l, recs.map fun r => .poseUpdate r.1)
      ∧ l.map Prod.fst = recs.map Prod.fst := by
  induction recs with
  | nil => exact ⟨[], rfl, rfl⟩
  | cons r rest ih =>
    obtain ⟨body, hbody⟩ :=
      Option.isSome_iff_exists.1 (hv r (List.mem_cons_self r rest))
    obtain ⟨l, hgo, hfst⟩ := ih fun a ha => hv a (List.mem_cons_of_mem r ha)
    refine ⟨(r.1, { r.2 with
                    position := body.position
                    rotation := body.rotation }) :: l, ?_, ?_⟩
    · simp only [updateBoxesGo, hbody, hgo, List.map_cons]
    · simpa using hfst

theorem updateBoxesGo_dangling {bodies : RigidBodySet}
    {recs : List (RigidBodyHandle × Node2DState)}
    {r : RigidBodyHandle × Node2DState}
    (hmem : r ∈ recs) (hnone : bodies.get r.1 = none) :
    ((updateBoxesGo bodies recs).1).isOk = false := by
  induction recs with
  | nil => cases hmem
  | cons a rest ih =>
    rcases List.mem_cons.1 hmem with rfl | hmem2
    · simp [updateBoxesGo, hnone, PanicOr.isOk]
    · cases hga : bodies.get a.1 with
      | none => simp [updateBoxesGo, hga, PanicOr.isOk]
      | some body =>
        have htail := ih hmem2
        simp only [updateBoxesGo, hga]
        cases hrun : (updateBoxesGo bodies rest).1 with
        | ok l => rw [hrun] at htail; simp [PanicOr.isOk] at htail
        | panic l => simp [hrun, PanicOr.isOk]

theorem RapierWorld2D.update_boxes_of_recordsValid {world : RapierWorld2D}
    (hv : recordsValid world) :
    ∃ l, world.update_boxes
           = (.ok { world with boxes := l },
              world.boxes.map fun r => .poseUpdate r.1)
      ∧ l.map Prod.fst = world.boxes.map Prod.fst := by
  obtain ⟨l, hgo, hfst⟩ := updateBoxesGo_valid hv
  exact ⟨l, by simp [RapierWorld2D.update_boxes, hgo], hfst⟩

/-! ### Preservation of the record-list invariant -/

theorem recordsValid_new : recordsValid RapierWorld2D.new :=
  fun r hr => absurd hr (List.not_mem_nil r)

theorem recordsValid_ready {world : RapierWorld2D} (hv : recordsValid world)
    (w h : ℚ) : recordsValid (world._ready w h) := by
  intro r hr
  have h1 : (world.physics.bodies.get r.1).isSome = true := hv r hr
  have h2 : ((world.physics.add_static 0 h w 10).bodies.get r.1).isSome
      = true := by
    rw [PhysicsState.get_add_static_of_isSome 0 h w 10 h1]; exact h1
  have h3 : (((world.physics.add_static 0 h w 10).add_static
      0 (h / 2) 10 h).bodies.get r.1).isSome = true := by
    rw [PhysicsState.get_add_static_of_isSome 0 (h / 2) 10 h h2]; exact h2
  show ((((world.physics.add_static 0 h w 10).add_static
      0 (h / 2) 10 h).add_static w (h / 2) 10 h).bodies.get r.1).isSome = true
  rw [PhysicsState.get_add_static_of_isSome w (h / 2) 10 h h3]; exact h3

theorem recordsValid_spawn {world : RapierWorld2D} (hv : recordsValid world)
    (resolver : ResourceResolver) (x y : ℚ) :
    PanicOr.Holds recordsValid (world.spawn resolver x y) := by
  cases hres : load_scene resolver boxScenePath with
  | none =>
    rw [RapierWorld2D.spawn_panic hres]
    intro r hr
    rw [PhysicsState.get_add_box_of_isSome x y (hv r hr)]
    exact hv r hr
  | some sc =>
    rw [RapierWorld2D.spawn_ok hres]
    intro r hr
    rcases List.mem_append.1 hr with hr0 | hr1
    · rw [PhysicsState.get_add_box_of_isSome x y (hv r hr0)]
      exact hv r hr0
    · have : r = ((world.physics.add_box x y).2,
          { instance_scene sc with
              name := "box_" ++ toString world.boxes.length }) := by
        simpa using hr1
      rw [this, PhysicsState.get_add_box_self]
      rfl

theorem recordsValid_tick {world : RapierWorld2D} (hv : recordsValid world)
    (integrate : Vector2 → RigidBody → RigidBody) (g : Vector2) :
    recordsValid
      { world with physics := world.physics.tick integrate g } := by
  intro r hr
  show ((world.physics.tick integrate g).bodies.get r.1).isSome = true
  rw [PhysicsState.get_tick]
  simpa using hv r hr

theorem recordsValid_update_boxes {world : RapierWorld2D}
    (hv : recordsValid world) :
    PanicOr.Holds recordsValid (world.update_boxes).1 := by
  obtain ⟨l, heq, hfst⟩ := RapierWorld2D.update_boxes_of_recordsValid hv
  rw [heq]
  intro r hr
  have hmem : r.1 ∈ world.boxes.map Prod.fst := by
    rw [← hfst]
    exact List.mem_map_of_mem Prod.fst hr
  obtain ⟨r0, hr0, hfst0⟩ := List.mem_map.1 hmem
  show ((world.physics.bodies.get r.1).isSome = true)
  rw [← hfst0]
  exact hv r0 hr0

theorem recordsValid_process {world : RapierWorld2D} (hv : recordsValid world)
    (resolver : ResourceResolver)
    (integrate : Vector2 → RigidBody → RigidBody) (inp : FrameInput) :
    PanicOr.Holds recordsValid
      (world._process resolver integrate inp) := by
  unfold RapierWorld2D._process RapierWorld2D.processTraced
  by_cases hp : inp.mousePress
  · simp only [hp, if_true]
    have hsp := recordsValid_spawn hv resolver inp.pos.x inp.pos.y
    cases hspawn : world.spawn resolver inp.pos.x inp.pos.y with
    | panic s =>
      rw [hspawn] at hsp
      exact hsp
    | ok w1 =>
      rw [hspawn] at hsp
      have hw2 := recordsValid_tick hsp integrate w1.gravity
      exact recordsValid_update_boxes hw2
  · simp only [hp, if_false]
    have hw2 := recordsValid_tick hv integrate world.gravity
    exact recordsValid_update_boxes hw2

/-! ### Iterated spawning -/

theorem PhysicsState.add_box_bodies_length (s : PhysicsState) (x y : ℚ) :
    (s.add_box x y).1.bodies.list.length = s.bodies.list.length + 1 := by
  simp [PhysicsState.add_box, RigidBodySet.insert]

theorem RapierWorld2D.spawnN_cons (resolver : ResourceResolver)
    (world : RapierWorld2D) (p : ℚ × ℚ) (ps : List (ℚ × ℚ)) :
    world.spawnN resolver (p :: ps)
      = match world.spawn resolver p.1 p.2 with
        | .panic s => .panic s
        | .ok w1 => w1.spawnN resolver ps :=
  rfl

theorem RapierWorld2D.spawnN_ok {resolver : ResourceResolver}
    {sc : PackedScene} (hres : load_scene resolver boxScenePath = some sc) :
    ∀ (ps : List (ℚ × ℚ)) (world : RapierWorld2D),
      ∃ wN, world.spawnN resolver ps = .ok wN
        ∧ wN.boxes.map Prod.fst
            = world.boxes.map Prod.fst
              ++ List.range' world.physics.bodies.list.length ps.length
        ∧ wN.boxes.map (fun r => r.2.name)
            = world.boxes.map (fun r => r.2.name)
              ++ (List.range' world.boxes.length ps.length).map
                   (fun n => "box_" ++ toString n)
        ∧ wN.physics.bodies.list.length
            = world.physics.bodies.list.length + ps.length := by
  intro ps
  induction ps with
  | nil =>
    intro world
    exact ⟨world, rfl, by simp [RapierWorld2D.spawnN], by
      simp [RapierWorld2D.spawnN], by simp⟩
  | cons p ps ih =>
    intro world
    obtain ⟨wN, hrun, hfst, hnames, hlen⟩ := ih
      { world with
          physics := (world.physics.add_box p.1 p.2).1
          boxes := world.boxes
            ++ [((world.physics.add_box p.1 p.2).2,
                 { instance_scene sc with
                     name := "box_" ++ toString world.boxes.length })] }
    refine ⟨wN, ?_, ?_, ?_, ?_⟩
    · rw [RapierWorld2D.spawnN_cons, RapierWorld2D.spawn_ok hres]
      exact hrun
    · rw [hfst]
      simp [PhysicsState.add_box_bodies_length, PhysicsState.add_box_handle,
        List.range'_succ]
    · rw [hnames]
      simp [List.range'_succ]
    · rw [hlen, PhysicsState.add_box_bodies_length, List.length_cons]
      omega

/-! ### Concrete fixtures for closed instances -/

/-- A concrete packed box scene with a default-named template node. -/
def boxScene : PackedScene :=
  { template :=
      { name := "RapierBox", position := { x := 0, y := 0 }, rotation := 0 } }

/-- A resolver on whose paths every load succeeds with `boxScene`. -/
def okResolver : ResourceResolver := fun _ => some boxScene

/-- A resolver modelling a missing or invalid box template. -/
def failResolver : ResourceResolver := fun _ => none

/-- A concrete integrator moving each dynamic body by the gravity vector
(one explicit Euler position step at unit timestep), used to exercise the
model on closed inputs. -/
def shiftIntegrate : Vector2 → RigidBody → RigidBody := fun g b =>
  { b with
      position := { x := b.position.x + g.x, y := b.position.y + g.y } }

/-- The controller state after one successful spawn at `(5, 7)` from the
fresh controller. -/
def spawnedWorld : RapierWorld2D :=
  { RapierWorld2D.new with
      physics := (RapierWorld2D.new.physics.add_box 5 7).1
      boxes := [((RapierWorld2D.new.physics.add_box 5 7).2,
                 { instance_scene boxScene with name := "box_0" })] }

/-- A controller state holding a record whose handle references no body. -/
def danglingWorld : RapierWorld2D :=
  { RapierWorld2D.new with
      boxes := [(0, { name := "box_0", position := { x := 0, y := 0 },
                      rotation := 0 })] }

/-! ### The claims -/

/-- C6: `_ready`, given viewport bounds `(w, h)`, creates exactly three
static boundary bodies — the floor at `(0, h)` with half-extents `(w, 10)`
spanning the width at the bottom, the left wall at `(0, h/2)` and the right
wall at `(w, h/2)` with half-extents `(10, h)` — each positioned and sized
from the supplied bounds, and creates no dynamic bodies and no records. -/
theorem C6_ready_creates_three_static_walls (w h : ℚ) :
    (RapierWorld2D.new._ready w h).physics.bodies.list
        = [{ kind := .staticBody, position := { x := 0, y := h },
             rotation := 0 },
           { kind := .staticBody, position := { x := 0, y := h / 2 },
             rotation := 0 },
           { kind := .staticBody, position := { x := w, y := h / 2 },
             rotation := 0 }]
    ∧ (RapierWorld2D.new._ready w h).physics.colliders
        = [{ halfExtents := { x := w, y := 10 }, parent := 0 },
           { halfExtents := { x := 10, y := h }, parent := 1 },
           { halfExtents := { x := 10, y := h }, parent := 2 }]
    ∧ ((RapierWorld2D.new._ready w h).physics.bodies.list.all
         fun b => b.kind == BodyKind.staticBody) = true
    ∧ (RapierWorld2D.new._ready w h).boxes = [] :=
  ⟨rfl, rfl, rfl, rfl⟩

/-- C8: `add_box` attaches exactly one collider to the new dynamic body, a
square box whose half-extents both equal `48 * 0.4 = 96/5` (`19.2`), and
returns a handle distinct from every previously issued handle (every handle
referencing a body existing before the call). -/
theorem C8_add_box_collider_and_fresh_handle (s : PhysicsState) (x y : ℚ)
    (h : RigidBodyHandle) (hprev : (s.bodies.get h).isSome = true) :
    (s.add_box x y).1.colliders
        = s.colliders
          ++ [{ halfExtents := { x := 96 / 5, y := 96 / 5 },
                parent := (s.add_box x y).2 }]
    ∧ h ≠ (s.add_box x y).2 := by
  constructor
  · show s.colliders
        ++ [{ halfExtents := { x := 48 * (2 / 5), y := 48 * (2 / 5) },
              parent := s.bodies.list.length }] = _
    norm_num [PhysicsState.add_box_handle]
  · intro heq
    rw [PhysicsState.add_box_handle] at heq
    exact Nat.ne_of_lt (RigidBodySet.lt_length_of_isSome hprev) heq

/-- C8 witness: from the state holding the floor body (handle `0`),
`add_box 400 0` appends the single `96/5`-square collider and returns a
handle other than `0`. -/
theorem C8_add_box_collider_and_fresh_handle_witness :
    ((PhysicsState.new.add_static 0 600 800 10).bodies.get 0).isSome = true
    ∧ (((PhysicsState.new.add_static 0 600 800 10).add_box 400 0).1.colliders
        = (PhysicsState.new.add_static 0 600 800 10).colliders
          ++ [{ halfExtents := { x := 96 / 5, y := 96 / 5 },
                parent := ((PhysicsState.new.add_static 0 600 800 10).add_box
                    400 0).2 }]
      ∧ 0 ≠ ((PhysicsState.new.add_static 0 600 800 10).add_box 400 0).2) :=
  ⟨by decide,
   C8_add_box_collider_and_fresh_handle _ 400 0 0 (by decide)⟩

/-- C4: immediately after a successful `spawn(x, y)` and before any step,
the newly appended record's handle has pose exactly `(x, y)` with rotation
`0`; the same holds directly after the underlying `add_box`. -/
theorem C4_pose_after_spawn (world w1 : RapierWorld2D)
    (resolver : ResourceResolver) (x y : ℚ)
    (hok : world.spawn resolver x y = .ok w1) :
    (∃ r, w1.boxes.getLast? = some r
       ∧ w1.physics.getBodyPose r.1 = some ({ x := x, y := y }, 0))
    ∧ (world.physics.add_box x y).1.getBodyPose
        (world.physics.add_box x y).2 = some ({ x := x, y := y }, 0) := by
  have hpose : (world.physics.add_box x y).1.getBodyPose
      (world.physics.add_box x y).2 = some ({ x := x, y := y }, 0) := by
    rw [PhysicsState.getBodyPose, RigidBodySet.get]
    rw [show (world.physics.add_box x y).1.bodies.list
          = world.physics.bodies.list
            ++ [{ kind := .dynamicBody, position := { x := x, y := y },
                  rotation := 0 }] from rfl]
    rw [show (world.physics.add_box x y).2
          = world.physics.bodies.list.length from rfl]
    rw [List.get?_concat_length]
    rfl
  refine ⟨?_, hpose⟩
  cases hres : load_scene resolver boxScenePath with
  | none =>
    rw [RapierWorld2D.spawn_panic hres] at hok
    cases hok
  | some sc =>
    rw [RapierWorld2D.spawn_ok hres] at hok
    cases hok
    refine ⟨((world.physics.add_box x y).2,
             { instance_scene sc with
                 name := "box_" ++ toString world.boxes.length }), ?_, ?_⟩
    · simp
    · exact hpose

/-- C4 witness: spawning at `(5, 7)` from the fresh controller gives a
record whose pose reads back as exactly `(5, 7)` with zero rotation. -/
theorem C4_pose_after_spawn_witness :
    (∃ r, spawnedWorld.boxes.getLast? = some r
       ∧ spawnedWorld.physics.getBodyPose r.1 = some ({ x := 5, y := 7 }, 0))
    ∧ (RapierWorld2D.new.physics.add_box 5 7).1.getBodyPose
        (RapierWorld2D.new.physics.add_box 5 7).2
          = some ({ x := 5, y := 7 }, 0) :=
  C4_pose_after_spawn RapierWorld2D.new spawnedWorld okResolver 5 7 rfl

/-- C5: a static body present before any step keeps exactly its position
and rotation after any number of subsequent `tick` calls, whatever gravity
each step supplies, whatever integration drives the dynamic bodies, and
whatever other bodies exist in the state. -/
theorem C5_static_bodies_never_move
    (integrate : Vector2 → RigidBody → RigidBody) (gravities : List Vector2)
    (s : PhysicsState) (h : RigidBodyHandle) (b : RigidBody)
    (hget : s.bodies.get h = some b) (hkind : b.kind = .staticBody) :
    (PhysicsState.ticks integrate gravities s).getBodyPose h
        = some (b.position, b.rotation)
    ∧ (PhysicsState.ticks integrate gravities s).getBodyPose h
        = s.getBodyPose h := by
  have h1 := @PhysicsState.get_ticks_static integrate gravities s h b hget
    hkind
  constructor
  · rw [PhysicsState.getBodyPose, h1]; rfl
  · rw [PhysicsState.getBodyPose, PhysicsState.getBodyPose, h1, hget]

/-- C5 witness: the floor body of a state also holding a falling box is
byte-for-byte unmoved after two gravity steps of a moving integrator. -/
theorem C5_static_bodies_never_move_witness :
    ((PhysicsState.new.add_static 0 600 800 10).add_box 400 0).1.bodies.get 0
        = some { kind := .staticBody, position := { x := 0, y := 600 },
                 rotation := 0 }
    ∧ (PhysicsState.ticks shiftIntegrate
          [{ x := 0, y := 98 }, { x := 0, y := 98 }]
          ((PhysicsState.new.add_static 0 600 800 10).add_box 400 0).1
        ).getBodyPose 0 = some ({ x := 0, y := 600 }, 0) :=
  ⟨rfl,
   (C5_static_bodies_never_move shiftIntegrate
      [{ x := 0, y := 98 }, { x := 0, y := 98 }]
      ((PhysicsState.new.add_static 0 600 800 10).add_box 400 0).1 0
      { kind := .staticBody, position := { x := 0, y := 600 }, rotation := 0 }
      rfl rfl).1⟩

/-- C3: spawning `N` bodies from the freshly readied controller, with every
spawn succeeding, yields exactly `N` records whose visual-node identifiers
are `box_0` through `box_(N-1)`, assigned in creation order, and no two
records in the list share a body handle. -/
theorem C3_spawn_identifiers_and_distinct_handles
    {resolver : ResourceResolver} {sc : PackedScene}
    (hres : load_scene resolver boxScenePath = some sc)
    (vw vh : ℚ) (ps : List (ℚ × ℚ)) :
    ∃ wN, (RapierWorld2D.new._ready vw vh).spawnN resolver ps = .ok wN
      ∧ wN.boxes.length = ps.length
      ∧ wN.boxes.map (fun r => r.2.name)
          = (List.range ps.length).map (fun n => "box_" ++ toString n)
      ∧ (wN.boxes.map Prod.fst).Nodup := by
  obtain ⟨wN, hrun, hfst, hnames, hlen⟩ :=
    RapierWorld2D.spawnN_ok hres ps (RapierWorld2D.new._ready vw vh)
  have hb : (RapierWorld2D.new._ready vw vh).boxes = [] := rfl
  have hl : (RapierWorld2D.new._ready vw vh).physics.bodies.list.length = 3 :=
    rfl
  simp only [hb, hl, List.map_nil, List.nil_append, List.length_nil]
    at hfst hnames
  refine ⟨wN, hrun, ?_, ?_, ?_⟩
  · have := congrArg List.length hnames
    simpa using this
  · rw [hnames, List.range_eq_range']
  · rw [hfst]
    exact List.nodup_range' _ _

/-- C3 witness: two successful spawns from the readied `800 × 600`
controller yield two records named `box_0`, `box_1` with distinct
handles. -/
theorem C3_spawn_identifiers_and_distinct_handles_witness :
    ∃ wN, (RapierWorld2D.new._ready 800 600).spawnN okResolver
            [(1, 2), (3, 4)] = .ok wN
      ∧ wN.boxes.length = [(1, 2), (3, 4)].length
      ∧ wN.boxes.map (fun r => r.2.name)
          = (List.range [(1, 2), (3, 4)].length).map
              (fun n => "box_" ++ toString n)
      ∧ (wN.boxes.map Prod.fst).Nodup :=
  @C3_spawn_identifiers_and_distinct_handles okResolver boxScene rfl 800 600
    [((1 : ℚ), (2 : ℚ)), (3, 4)]

/-- One recorded call of a run, with its arguments: body creation
(`add_static`, `add_box`) or one step (`tick`) under the gravity supplied
for that step. -/
inductive WorldOp where
  | opStatic (x y w h : ℚ)
  | opBox (x y : ℚ)
  | opStep (gravity : Vector2)
  deriving DecidableEq, Repr

/-- Executes one recorded call on the physics state. -/
def PhysicsState.runOp (integrate : Vector2 → RigidBody → RigidBody)
    (s : PhysicsState) : WorldOp → PhysicsState
  | .opStatic x y w h => s.add_static x y w h
  | .opBox x y => (s.add_box x y).1
  | .opStep g => s.tick integrate g

/-- The poses of all bodies after every prefix of a call sequence executed
from the fresh state: the trajectory of the simulation under that run. -/
def trajectory (integrate : Vector2 → RigidBody → RigidBody)
    (ops : List WorldOp) : List (List (Vector2 × ℚ)) :=
  (ops.scanl (PhysicsState.runOp integrate) PhysicsState.new).map
    fun s => s.bodies.list.map fun b => (b.position, b.rotation)

/-- C9: two runs within one process (so under the same integration
semantics) that perform identical sequences of body-creation and step calls
with identical per-step gravities produce identical body poses after every
prefix of the run. -/
theorem C9_determinism (integrate : Vector2 → RigidBody → RigidBody)
    (ops1 ops2 : List WorldOp) (heq : ops1 = ops2) :
    trajectory integrate ops1 = trajectory integrate ops2 := by
  rw [heq]

/-- C9 witness: replaying the concrete run floor-box-step-step gives the
same trajectory. -/
theorem C9_determinism_witness :
    trajectory shiftIntegrate
        [.opStatic 0 600 800 10, .opBox 400 0, .opStep { x := 0, y := 98 },
         .opStep { x := 0, y := 98 }]
      = trajectory shiftIntegrate
          [.opStatic 0 600 800 10, .opBox 400 0, .opStep { x := 0, y := 98 },
           .opStep { x := 0, y := 98 }] :=
  C9_determinism shiftIntegrate _ _ rfl

/-- C10: every operation — construction, `_ready`, `spawn` (even a spawn
that panics), the frame tick, the frame loop `_process` — keeps the
invariant that every handle stored in the record list references a body
present in the rigid-body set, and under that invariant the per-frame pose
lookup of `update_boxes` always succeeds: its `unwrap` branch is
unreachable. -/
theorem C10_record_handles_always_resolve (world : RapierWorld2D)
    (hv : recordsValid world) (resolver : ResourceResolver)
    (integrate : Vector2 → RigidBody → RigidBody)
    (vw vh x y : ℚ) (inp : FrameInput) :
    recordsValid RapierWorld2D.new
    ∧ recordsValid (world._ready vw vh)
    ∧ PanicOr.Holds recordsValid (world.spawn resolver x y)
    ∧ recordsValid
        { world with physics := world.physics.tick integrate world.gravity }
    ∧ ((world.update_boxes).1).isOk = true
    ∧ PanicOr.Holds recordsValid
        (world._process resolver integrate inp) := by
  refine ⟨recordsValid_new, recordsValid_ready hv vw vh,
    recordsValid_spawn hv resolver x y,
    recordsValid_tick hv integrate world.gravity, ?_,
    recordsValid_process hv resolver integrate inp⟩
  obtain ⟨l, heq, -⟩ := RapierWorld2D.update_boxes_of_recordsValid hv
  rw [heq]
  rfl

/-- C10 witness: the invariant facts at the one-record controller state
after a successful spawn. -/
theorem C10_record_handles_always_resolve_witness :
    recordsValid spawnedWorld
    ∧ (recordsValid RapierWorld2D.new
      ∧ recordsValid (spawnedWorld._ready 800 600)
      ∧ PanicOr.Holds recordsValid (spawnedWorld.spawn okResolver 3 4)
      ∧ recordsValid
          { spawnedWorld with
              physics := spawnedWorld.physics.tick shiftIntegrate
                spawnedWorld.gravity }
      ∧ ((spawnedWorld.update_boxes).1).isOk = true
      ∧ PanicOr.Holds recordsValid
          (spawnedWorld._process okResolver shiftIntegrate
            { mousePress := false, pos := { x := 0, y := 0 } })) :=
  ⟨fun r hr => by simp [spawnedWorld] at hr; rw [hr]; rfl,
   C10_record_handles_always_resolve spawnedWorld
     (fun r hr => by simp [spawnedWorld] at hr; rw [hr]; rfl)
     okResolver shiftIntegrate 800 600 3 4
     { mousePress := false, pos := { x := 0, y := 0 } }⟩

/-- C7: in every `_process` frame whose triggered spawn (if any) resolves
its template and whose record list is consistent, the phases occur in the
fixed order the spec gives: the spawn call happens iff the trigger is
active and strictly precedes the step; the step with the current gravity
occurs exactly once; and every pose read comes strictly after the step,
iterating the record list in list order (the record spawned this frame
last). -/
theorem C7_frame_phase_order {resolver : ResourceResolver} {sc : PackedScene}
    (hres : load_scene resolver boxScenePath = some sc)
    (integrate : Vector2 → RigidBody → RigidBody) (world : RapierWorld2D)
    (hv : recordsValid world) (inp : FrameInput) :
    (world.processTraced resolver integrate inp).2
      = (if inp.mousePress
         then [FrameEvent.spawnCall inp.pos.x inp.pos.y] else [])
        ++ [FrameEvent.stepCall world.gravity]
        ++ (world.boxes.map fun r => FrameEvent.poseUpdate r.1)
        ++ (if inp.mousePress
            then [FrameEvent.poseUpdate
                    (world.physics.add_box inp.pos.x inp.pos.y).2]
            else []) := by
  by_cases hp : inp.mousePress
  · simp only [RapierWorld2D.processTraced, hp, if_true,
      RapierWorld2D.spawn_ok hres]
    have hv1 : recordsValid
        { world with
            physics := (world.physics.add_box inp.pos.x inp.pos.y).1
            boxes := world.boxes
              ++ [((world.physics.add_box inp.pos.x inp.pos.y).2,
                   { instance_scene sc with
                       name := "box_" ++ toString world.boxes.length })] } := by
      have := recordsValid_spawn hv resolver inp.pos.x inp.pos.y
      rw [RapierWorld2D.spawn_ok hres] at this
      exact this
    have hv2 := recordsValid_tick hv1 integrate world.gravity
    obtain ⟨l, heq, -⟩ := RapierWorld2D.update_boxes_of_recordsValid hv2
    rw [heq]
    simp
  · simp only [RapierWorld2D.processTraced, hp, if_false]
    have hv2 := recordsValid_tick hv integrate world.gravity
    obtain ⟨l, heq, -⟩ := RapierWorld2D.update_boxes_of_recordsValid hv2
    rw [heq]
    simp

/-- C7 witness: the full trace of a triggered frame from the one-record
controller: spawn, then the single step at gravity `(0, 98)`, then the pose
updates of both records in list order. -/
theorem C7_frame_phase_order_witness :
    (spawnedWorld.processTraced okResolver shiftIntegrate
        { mousePress := true, pos := { x := 3, y := 4 } }).2
      = [FrameEvent.spawnCall 3 4]
        ++ [FrameEvent.stepCall { x := 0, y := 98 }]
        ++ (spawnedWorld.boxes.map fun r => FrameEvent.poseUpdate r.1)
        ++ [FrameEvent.poseUpdate
              (spawnedWorld.physics.add_box 3 4).2] :=
  @C7_frame_phase_order okResolver boxScene rfl shiftIntegrate spawnedWorld
    (fun r hr => by simp [spawnedWorld] at hr; rw [hr]; rfl)
    { mousePress := true, pos := { x := 3, y := 4 } }

/-- C1 counterexample: with the box template unresolvable, the spawn
attempt at `(1, 2)` from the fresh controller does not fail with a
recoverable, logged-and-skipped error — it panics on the `unwrap`, the
triggered frame's outcome is the panic rather than a completed frame, and
the frame's trace is the bare spawn call: the step never runs, so the
simulation does not continue past the failure, and the panic state holds
the freshly inserted body with no record (no rollback). -/
theorem C1_counterexample :
    RapierWorld2D.new.spawn failResolver 1 2
        = .panic { RapierWorld2D.new with
                     physics := (RapierWorld2D.new.physics.add_box 1 2).1 }
    ∧ (RapierWorld2D.new._process failResolver shiftIntegrate
        { mousePress := true, pos := { x := 1, y := 2 } }).isOk = false
    ∧ (RapierWorld2D.new.processTraced failResolver shiftIntegrate
        { mousePress := true, pos := { x := 1, y := 2 } }).2
        = [FrameEvent.spawnCall 1 2] :=
  ⟨rfl, rfl, rfl⟩

/-- C1 amended: if the external visual template cannot be resolved during
spawn, the spawn panics on `load_scene(..).unwrap()` — there is no
recoverable `AssetLoadError` value, nothing is logged and skipped — the
already-inserted dynamic body is not rolled back and no record is appended,
and a frame whose trigger fired propagates the panic, aborting the whole
frame before the step ever runs. -/
theorem C1_spawn_panics_on_missing_template (resolver : ResourceResolver)
    (hfail : load_scene resolver boxScenePath = none)
    (integrate : Vector2 → RigidBody → RigidBody) (world : RapierWorld2D)
    (x y : ℚ) (inp : FrameInput) (hpress : inp.mousePress = true) :
    world.spawn resolver x y
        = .panic { world with physics := (world.physics.add_box x y).1 }
    ∧ world._process resolver integrate inp
        = .panic
            { world with
                physics := (world.physics.add_box inp.pos.x inp.pos.y).1 }
    ∧ (world._process resolver integrate inp).isOk = false
    ∧ (world.processTraced resolver integrate inp).2
        = [FrameEvent.spawnCall inp.pos.x inp.pos.y] := by
  have hproc : world.processTraced resolver integrate inp
      = (.panic
           { world with
               physics := (world.physics.add_box inp.pos.x inp.pos.y).1 },
         [FrameEvent.spawnCall inp.pos.x inp.pos.y]) := by
    simp only [RapierWorld2D.processTraced, hpress, if_true,
      RapierWorld2D.spawn_panic hfail]
  refine ⟨RapierWorld2D.spawn_panic hfail world x y, ?_, ?_, ?_⟩
  · show (world.processTraced resolver integrate inp).1 = _
    rw [hproc]
  · show ((world.processTraced resolver integrate inp).1).isOk = false
    rw [hproc]
    rfl
  · rw [hproc]

/-- C1 witness: the amended behaviour at the fresh controller, position
`(1, 2)`, with the always-failing resolver. -/
theorem C1_spawn_panics_on_missing_template_witness :
    RapierWorld2D.new.spawn failResolver 1 2
        = .panic { RapierWorld2D.new with
                     physics := (RapierWorld2D.new.physics.add_box 1 2).1 }
    ∧ RapierWorld2D.new._process failResolver shiftIntegrate
          { mousePress := true, pos := { x := 1, y := 2 } }
        = .panic
            { RapierWorld2D.new with
                physics := (RapierWorld2D.new.physics.add_box
                  ({ mousePress := true,
                     pos := { x := 1, y := 2 } } : FrameInput).pos.x
                  ({ mousePress := true,
                     pos := { x := 1, y := 2 } } : FrameInput).pos.y).1 }
    ∧ (RapierWorld2D.new._process failResolver shiftIntegrate
        { mousePress := true, pos := { x := 1, y := 2 } }).isOk = false
    ∧ (RapierWorld2D.new.processTraced failResolver shiftIntegrate
        { mousePress := true, pos := { x := 1, y := 2 } }).2
        = [FrameEvent.spawnCall
            ({ mousePress := true,
               pos := { x := 1, y := 2 } } : FrameInput).pos.x
            ({ mousePress := true,
               pos := { x := 1, y := 2 } } : FrameInput).pos.y] :=
  C1_spawn_panics_on_missing_template failResolver rfl shiftIntegrate
    RapierWorld2D.new 1 2 { mousePress := true, pos := { x := 1, y := 2 } }
    rfl

/-- C2 counterexample: with one record whose handle `0` references no body,
the pose lookup yields no pose at all, and the frame's synchronization
panics on the `unwrap` — both `update_boxes` and the whole `_process` frame
end in a panic (divergence), not in a recoverable `BodyNotFound` error. -/
theorem C2_counterexample :
    danglingWorld.physics.getBodyPose 0 = none
    ∧ ((danglingWorld.update_boxes).1).isOk = false
    ∧ (danglingWorld._process okResolver shiftIntegrate
        { mousePress := false, pos := { x := 0, y := 0 } }).isOk = false :=
  ⟨rfl, rfl, rfl⟩

/-- C2 amended: a body-pose lookup with a handle that does not reference a
currently existing body yields no pose (`none` — never a stale pose), and
the per-frame synchronization `unwrap`s that lookup, so a frame holding
such a dangling record panics (diverges) instead of failing with a
recoverable `BodyNotFound` error value. -/
theorem C2_dangling_lookup_panics (world : RapierWorld2D)
    (r : RigidBodyHandle × Node2DState) (hmem : r ∈ world.boxes)
    (hnone : world.physics.bodies.get r.1 = none) :
    world.physics.getBodyPose r.1 = none
    ∧ ((world.update_boxes).1).isOk = false := by
  refine ⟨by rw [PhysicsState.getBodyPose, hnone]; rfl, ?_⟩
  have hgo := updateBoxesGo_dangling hmem hnone
  show (match (updateBoxesGo world.physics.bodies world.boxes).1 with
        | .ok l => PanicOr.ok { world with boxes := l }
        | .panic l => PanicOr.panic { world with boxes := l }).isOk = false
  cases hrun : (updateBoxesGo world.physics.bodies world.boxes).1 with
  | ok l =>
    rw [hrun] at hgo
    simp [PanicOr.isOk] at hgo
  | panic l =>
    rfl

/-- C2 witness: the amended behaviour at the concrete one-dangling-record
controller state. -/
theorem C2_dangling_lookup_panics_witness :
    danglingWorld.physics.getBodyPose
        (0, ({ name := "box_0", position := { x := 0, y := 0 },
               rotation := 0 } : Node2DState)).1 = none
    ∧ ((danglingWorld.update_boxes).1).isOk = false :=
  C2_dangling_lookup_panics danglingWorld
    (0, { name := "box_0", position := { x := 0, y := 0 }, rotation := 0 })
    (List.mem_singleton_self _) rfl

end GodotVsRapier
